import Mathlib

/-!
Shallow embedding of `src/api/providers/ollama.ts`.

The source file contains two variants of the `OllamaHandler` adapter class:
a strict variant (first part of the file: model-id validation, `?? 30000`
timeout default, error classification into connectivity / API errors) and a
second variant (after the separator: `@withRetry` decorated, `|| 60000`
timeout default, streaming/non-streaming switch, mid-stream error wrapping,
outer catch that rewrites "timed out" errors).  Definitions suffixed `1`
embed the strict variant, definitions suffixed `2` the second variant.

External collaborators that are not part of this file — the message
converter `convertToOllamaMessages`, the `Ollama` transport client, the
`withRetry` decorator and the metadata record `openAiModelInfoSaneDefaults`
— are kept as parameters or spec-modelled constants.  The transport client
and the timer are modelled by an environment value describing which promise
settles first and what it settles to; `createMessage` is then a pure
function of the configuration, the inputs and that environment.
-/

/-- Configuration bag `ApiHandlerOptions` restricted to the fields this file
reads.  `none` models a JS `undefined` field. -/
structure ApiHandlerOptions where
  ollamaBaseUrl : Option String
  ollamaModelId : Option String
  ollamaApiOptionsCtxNum : Option String
  requestTimeoutMs : Option Nat
  ollamaUseStreaming : Option Bool
deriving DecidableEq

/-- JS truthiness of an optional string: `undefined` and `""` are falsy. -/
def strTruthy : Option String → Bool
  | some s => s != ""
  | none => false

/-- JS `x || d` for an optional string (used by the second variant:
`ollamaModelId || ""`, `ollamaBaseUrl || "http://localhost:11434"`). -/
def strOr : Option String → String → String
  | some s, d => if s == "" then d else s
  | none, d => d

/-- JS `x || d` for an optional number: `undefined` and `0` are falsy
(used by the second variant: `requestTimeoutMs || 60000`, `x || 0`). -/
def natOr : Option Nat → Nat → Nat
  | some n, d => if n == 0 then d else n
  | none, d => d

/-- ASCII whitespace, the fragment of JS whitespace these claims use. -/
def isSpaceChar (c : Char) : Bool :=
  c == ' ' || c == '\t' || c == '\n' || c == '\r'

/-- Strip leading and trailing whitespace from a character list. -/
def trimChars (cs : List Char) : List Char :=
  ((cs.dropWhile isSpaceChar).reverse.dropWhile isSpaceChar).reverse

/-- Value of a decimal digit character, `none` for a non-digit. -/
def decDigit (c : Char) : Option Nat :=
  if 48 ≤ c.toNat && c.toNat ≤ 57 then some (c.toNat - 48) else none

/-- Parse a non-empty run of decimal digits left to right onto `acc`. -/
def parseNatAux : List Char → Nat → Option Nat
  | [], acc => some acc
  | c :: cs, acc =>
    match decDigit c with
    | some d => parseNatAux cs (acc * 10 + d)
    | none => none

/-- Parse an optionally minus-signed decimal integer literal. -/
def parseIntChars : List Char → Option Int
  | [] => none
  | '-' :: cs =>
    if cs.isEmpty then none
    else (parseNatAux cs 0).map fun n => -(n : Int)
  | cs => (parseNatAux cs 0).map fun n => (n : Int)

/-- JavaScript `Number()` applied to a string, restricted to the integer
literals this adapter's configuration uses: a whitespace-only string gives
`0`, an optionally signed decimal integer literal parses to its value, and
anything else is `none`, modelling `NaN`. -/
def jsNumber (s : String) : Option Int :=
  let t := trimChars s.toList
  if t.isEmpty then some 0 else parseIntChars t

/-- `Number(ctxNum) || 32768` applied to the optional configuration string:
`Number(undefined)` is `NaN`, and `NaN` and `0` are falsy. -/
def numCtxOr32768 : Option String → Int
  | none => 32768
  | some s =>
    match jsNumber s with
    | some n => if n == 0 then 32768 else n
    | none => 32768

/-- Does `sub` occur as a contiguous run inside `s`? -/
def listIncludes (sub : List Char) : List Char → Bool
  | [] => sub.isEmpty
  | c :: rest => sub.isPrefixOf (c :: rest) || listIncludes sub rest

/-- JS `String.prototype.includes`. -/
def jsIncludes (s sub : String) : Bool :=
  listIncludes sub.toList s.toList

/-- Model metadata record `ModelInfo`, restricted to the fields the spec
attributes to it (context window plus pricing-like defaults). -/
structure ModelInfo where
  maxTokens : Int
  contextWindow : Int
  supportsImages : Bool
  supportsPromptCache : Bool
  inputPrice : Int
  outputPrice : Int
deriving DecidableEq

/-- Modelled from the spec: `openAiModelInfoSaneDefaults` is imported from
`shared/api`, which is not part of this file; the spec describes it only as
a defaulted metadata record with "a fixed default window size".  It is
modelled as a fixed record; no claim depends on its exact field values,
only on it being a fixed record with a positive context window. -/
def openAiModelInfoSaneDefaults : ModelInfo :=
  { maxTokens := -1
    contextWindow := 128000
    supportsImages := true
    supportsPromptCache := false
    inputPrice := 0
    outputPrice := 0 }

/-- Return type of `getModel`: `{ id, info }`. -/
structure ModelDescriptor where
  id : String
  info : ModelInfo
deriving DecidableEq

/-- The `info` computation shared verbatim by both variants of `getModel`:
`ollamaApiOptionsCtxNum ? { ...defaults, contextWindow: Number(...) || 32768 }
: defaults`. -/
def modelInfoFromCtx (ctx : Option String) : ModelInfo :=
  if strTruthy ctx then
    { openAiModelInfoSaneDefaults with contextWindow := numCtxOr32768 ctx }
  else openAiModelInfoSaneDefaults

/-- `getModel` of the strict variant.  The source reads
`this.options.ollamaModelId!` (a TypeScript non-null assertion, annotated
"validated above" because `createMessage` rejects a falsy model id); the
absent-id case is modelled as the empty string. -/
def getModel1 (o : ApiHandlerOptions) : ModelDescriptor :=
  { id := o.ollamaModelId.getD ""
    info := modelInfoFromCtx o.ollamaApiOptionsCtxNum }

/-- `getModel` of the second variant: `this.options.ollamaModelId || ""`. -/
def getModel2 (o : ApiHandlerOptions) : ModelDescriptor :=
  { id := strOr o.ollamaModelId ""
    info := modelInfoFromCtx o.ollamaApiOptionsCtxNum }

/-- Generic input conversation message (`Anthropic.Messages.MessageParam`),
kept abstract: only the external converter looks inside it. -/
structure AnthMessage where
  role : String
  content : String
deriving DecidableEq

/-- Wire-format message (`Message` of the ollama package). -/
structure OMessage where
  role : String
  content : String
deriving DecidableEq

/-- The external pure collaborator `convertToOllamaMessages`, not part of
this file: kept as a parameter. -/
abbrev Converter := List AnthMessage → List OMessage

/-- The message list both variants build:
`[{ role: "system", content: systemPrompt }, ...convertToOllamaMessages(messages)]`. -/
def ollamaMessages (conv : Converter) (systemPrompt : String)
    (msgs : List AnthMessage) : List OMessage :=
  { role := "system", content := systemPrompt } :: conv msgs

/-- The argument record passed to `client.chat`.  The strict variant passes
no `options`; the second variant passes `options.num_ctx`. -/
structure ChatRequest where
  model : String
  messages : List OMessage
  stream : Bool
  num_ctx : Option Int
deriving DecidableEq

/-- The chat request issued by the strict variant (`stream: true`, no
`options`). -/
def request1 (o : ApiHandlerOptions) (conv : Converter) (systemPrompt : String)
    (msgs : List AnthMessage) : ChatRequest :=
  { model := o.ollamaModelId.getD ""
    messages := ollamaMessages conv systemPrompt msgs
    stream := true
    num_ctx := none }

/-- The chat request issued by the second variant: `model: this.getModel().id`,
`options: { num_ctx: Number(this.options.ollamaApiOptionsCtxNum) || 32768 }`. -/
def request2 (o : ApiHandlerOptions) (conv : Converter) (systemPrompt : String)
    (msgs : List AnthMessage) (stream : Bool) : ChatRequest :=
  { model := (getModel2 o).id
    messages := ollamaMessages conv systemPrompt msgs
    stream := stream
    num_ctx := some (numCtxOr32768 o.ollamaApiOptionsCtxNum) }

/-- One partial response object from the server:
`{ message: { content }, eval_count?, prompt_eval_count? }`.  `content` is
`some s` when `message.content` is the string `s` (the source tests
`typeof chunk.message.content === "string"`), `none` otherwise. -/
structure OllamaChunk where
  content : Option String
  eval_count : Option Nat
  prompt_eval_count : Option Nat
deriving DecidableEq

/-- Normalized output chunk (`ApiStreamChunk`):
`{type: "text", text}` or `{type: "usage", inputTokens, outputTokens}`. -/
inductive ApiStreamChunk where
  | text (text : String)
  | usage (inputTokens : Nat) (outputTokens : Nat)
deriving DecidableEq

/-- Per-chunk emission of the strict variant's stream loop: a `text` chunk
when `message.content` is a string, then a `usage` chunk when `eval_count`
or `prompt_eval_count` is defined, counters defaulted with `?? 0`. -/
def processChunk1 (c : OllamaChunk) : List ApiStreamChunk :=
  (match c.content with
    | some s => [ApiStreamChunk.text s]
    | none => []) ++
  (if c.eval_count.isSome || c.prompt_eval_count.isSome then
    [ApiStreamChunk.usage (c.prompt_eval_count.getD 0) (c.eval_count.getD 0)]
  else [])

/-- Per-chunk emission of the second variant's stream loop (and of its
non-streaming response handling, which is the same code applied once):
counters are defaulted with `|| 0` instead of `?? 0`. -/
def processChunk2 (c : OllamaChunk) : List ApiStreamChunk :=
  (match c.content with
    | some s => [ApiStreamChunk.text s]
    | none => []) ++
  (if c.eval_count.isSome || c.prompt_eval_count.isSome then
    [ApiStreamChunk.usage (natOr c.prompt_eval_count 0) (natOr c.eval_count 0)]
  else [])

/-- The fields of a JS error value that the handlers read: `message`; the
`code` of `err.cause ?? err` (when `code` is present, `message` stands for
that same object's message, which the handlers interpolate next to it); and
the HTTP `status` / `statusCode` fields. -/
structure JsError where
  message : String
  code : Option String
  status : Option Nat
  statusCode : Option Nat
deriving DecidableEq

/-- Result of racing the streaming `client.chat` promise against the timer:
the timer settles first, the request rejects first, or the stream resolves
and then yields `chunks`, after which iteration either finishes (`err =
none`) or raises `err`. -/
inductive StreamRace where
  | timeout
  | rejected (e : JsError)
  | ok (chunks : List OllamaChunk) (err : Option JsError)

/-- Result of racing the non-streaming `client.chat` promise against the
timer. -/
inductive SingleRace where
  | timeout
  | rejected (e : JsError)
  | ok (resp : OllamaChunk)

/-- Environment for one `createMessage` call: what each shape of `client.chat`
call would settle to when raced against the timer. -/
structure Env where
  streamCall : StreamRace
  singleCall : SingleRace

/-- Observable outcome of one `createMessage` call: the chat request issued
to the transport client (`none` when the call failed before issuing one),
the chunks yielded to the caller before the call finished, and the message
of the error it raised (`none` on success).  Chunks already yielded by the
generator are in the caller's hands, so they appear even when an error
follows. -/
structure CMTrace where
  request : Option ChatRequest
  chunks : List ApiStreamChunk
  error : Option String
deriving DecidableEq

/-- The rejection message of the manual timeout timer (identical text in
both variants).  The source computes `timeoutMs / 1000` with JS number
division; it is modelled with Nat division, which agrees on the
whole-second values this development evaluates it at. -/
def timerMessage (timeoutMs : Nat) : String :=
  "Ollama request timed out after " ++ toString (timeoutMs / 1000) ++ " seconds"

/-- The strict variant's catch block around the race: an error whose
`(err.cause ?? err).code` is present becomes a "Could not reach Ollama"
diagnostic naming the base URL; otherwise an "Ollama API error" diagnostic
carrying `status ?? statusCode ?? "unknown"`. -/
def classifyError1 (o : ApiHandlerOptions) (e : JsError) : String :=
  match e.code with
  | some c =>
    "Could not reach Ollama at " ++ o.ollamaBaseUrl.getD "http://localhost:11434" ++
      " — " ++ c ++ ": " ++ e.message
  | none =>
    let status :=
      match e.status with
      | some s => toString s
      | none =>
        match e.statusCode with
        | some s => toString s
        | none => "unknown"
    "Ollama API error (" ++ status ++ "): " ++ e.message

/-- `createMessage` of the strict variant: reject a falsy model id before
doing anything else; race the streaming request against a
`requestTimeoutMs ?? 30000` timer, classifying any rejection (including the
timer's own) through the catch block; then iterate the stream with no
surrounding try, so a mid-iteration error propagates raw after the chunks
already yielded. -/
def createMessage1 (o : ApiHandlerOptions) (conv : Converter)
    (systemPrompt : String) (msgs : List AnthMessage) (env : StreamRace) :
    CMTrace :=
  if !strTruthy o.ollamaModelId then
    { request := none, chunks := [], error := some "Ollama model id is required" }
  else
    let timeoutMs := o.requestTimeoutMs.getD 30000
    let req := request1 o conv systemPrompt msgs
    match env with
    | StreamRace.timeout =>
      { request := some req, chunks := []
        error := some (classifyError1 o { message := timerMessage timeoutMs,
                                          code := none, status := none, statusCode := none }) }
    | StreamRace.rejected e =>
      { request := some req, chunks := [], error := some (classifyError1 o e) }
    | StreamRace.ok chunks err =>
      { request := some req, chunks := chunks.flatMap processChunk1
        error := err.map fun e => e.message }

/-- The second variant's wrapping of an error raised while iterating the
stream: `Ollama stream processing error: ${streamError.message || "Unknown error"}`. -/
def wrapStreamError (e : JsError) : String :=
  "Ollama stream processing error: " ++
    (if e.message == "" then "Unknown error" else e.message)

/-- The second variant's outer catch block, applied to the message of any
error escaping the try: a non-empty message containing "timed out" is
replaced by a fresh timeout message computed with `requestTimeoutMs || 30000`
(not the `|| 60000` the timer itself used); any other error is re-raised
unchanged (the status code is computed only for a log line). -/
def outerCatch2 (o : ApiHandlerOptions) (msg : String) : String :=
  if msg != "" && jsIncludes msg "timed out" then
    "Ollama request timed out after " ++
      toString (natOr o.requestTimeoutMs 30000 / 1000) ++ " seconds"
  else msg

/-- `createMessage` of the second variant: no model-id validation (an absent
id reaches the request as `""` through `getModel`); a
`requestTimeoutMs || 60000` timer; a streaming or non-streaming request
according to `ollamaUseStreaming ?? true`; chunks emitted as they are
consumed; a mid-stream error wrapped by `wrapStreamError`; and every error
routed through the outer catch block before reaching the caller. -/
def createMessage2 (o : ApiHandlerOptions) (conv : Converter)
    (systemPrompt : String) (msgs : List AnthMessage) (env : Env) : CMTrace :=
  let timeoutMs := natOr o.requestTimeoutMs 60000
  if o.ollamaUseStreaming.getD true then
    let req := request2 o conv systemPrompt msgs true
    match env.streamCall with
    | StreamRace.timeout =>
      { request := some req, chunks := []
        error := some (outerCatch2 o (timerMessage timeoutMs)) }
    | StreamRace.rejected e =>
      { request := some req, chunks := [], error := some (outerCatch2 o e.message) }
    | StreamRace.ok chunks err =>
      let emitted := chunks.flatMap processChunk2
      match err with
      | none => { request := some req, chunks := emitted, error := none }
      | some e =>
        { request := some req, chunks := emitted
          error := some (outerCatch2 o (wrapStreamError e)) }
  else
    let req := request2 o conv systemPrompt msgs false
    match env.singleCall with
    | SingleRace.timeout =>
      { request := some req, chunks := []
        error := some (outerCatch2 o (timerMessage timeoutMs)) }
    | SingleRace.rejected e =>
      { request := some req, chunks := [], error := some (outerCatch2 o e.message) }
    | SingleRace.ok resp =>
      { request := some req, chunks := processChunk2 resp, error := none }

/-- Empty converter, used to instantiate witnesses and counterexamples. -/
def conv0 : Converter := fun _ => []

/-- Fully default configuration: every option absent. -/
def oDefault : ApiHandlerOptions :=
  { ollamaBaseUrl := none, ollamaModelId := none, ollamaApiOptionsCtxNum := none
    requestTimeoutMs := none, ollamaUseStreaming := none }

/-- Default configuration with a model id set. -/
def oModel : ApiHandlerOptions :=
  { oDefault with ollamaModelId := some "llama2" }

/-- Default configuration with streaming disabled and a model id set. -/
def oNoStream : ApiHandlerOptions :=
  { oDefault with ollamaModelId := some "llama2", ollamaUseStreaming := some false }

/-- Configuration with a context-size override of "131072". -/
def oCtx131 : ApiHandlerOptions :=
  { oDefault with ollamaApiOptionsCtxNum := some "131072" }

/-- Configuration with a negative context-size override. -/
def oNegCtx : ApiHandlerOptions :=
  { oDefault with ollamaApiOptionsCtxNum := some "-5" }

/-- Configuration with a non-numeric context-size override. -/
def oCtxAbc : ApiHandlerOptions :=
  { oDefault with ollamaApiOptionsCtxNum := some "abc" }

/-- A network-level failure: an error whose cause carries a code. -/
def eConn : JsError :=
  { message := "fetch failed", code := some "ECONNREFUSED", status := none, statusCode := none }

/-- A mid-stream error whose message happens to contain "timed out". -/
def eMidTimeout : JsError :=
  { message := "connection timed out", code := none, status := none, statusCode := none }

/-- The three-chunk stream of claim C1: content "a", content "b", then a
final counters-only chunk with `eval_count = 3` and `prompt_eval_count = 5`. -/
def streamAB : List OllamaChunk :=
  [⟨some "a", none, none⟩, ⟨some "b", none, none⟩, ⟨none, some 3, some 5⟩]

/-- C1: for a streamed response whose chunks carry `message.content` "a",
then "b", then a final chunk with counters `prompt_eval_count = 5` and
`eval_count = 3`, both variants of `createMessage` emit exactly the sequence
`Text("a")`, `Text("b")`, `Usage(5,3)` and finish without error — one `Text`
chunk per content-bearing piece, a `Usage` chunk when the server reports
evaluation counters, and (last conjunct) any missing counter defaulted to
zero. -/
theorem c1_stream_sequence (o : ApiHandlerOptions) (conv : Converter)
    (sp : String) (msgs : List AnthMessage) (sc : SingleRace)
    (hm : strTruthy o.ollamaModelId = true)
    (hs : o.ollamaUseStreaming.getD true = true) :
    (createMessage1 o conv sp msgs (StreamRace.ok streamAB none)).chunks =
      [ApiStreamChunk.text "a", ApiStreamChunk.text "b", ApiStreamChunk.usage 5 3] ∧
    (createMessage1 o conv sp msgs (StreamRace.ok streamAB none)).error = none ∧
    (createMessage2 o conv sp msgs ⟨StreamRace.ok streamAB none, sc⟩).chunks =
      [ApiStreamChunk.text "a", ApiStreamChunk.text "b", ApiStreamChunk.usage 5 3] ∧
    (createMessage2 o conv sp msgs ⟨StreamRace.ok streamAB none, sc⟩).error = none ∧
    (∀ n : Nat,
      processChunk1 ⟨none, none, some n⟩ = [ApiStreamChunk.usage n 0] ∧
      processChunk1 ⟨none, some n, none⟩ = [ApiStreamChunk.usage 0 n] ∧
      processChunk2 ⟨none, none, some n⟩ = [ApiStreamChunk.usage (natOr (some n) 0) 0] ∧
      processChunk2 ⟨none, some n, none⟩ = [ApiStreamChunk.usage 0 (natOr (some n) 0)] ∧
      natOr (some n) 0 = n) := by
  refine ⟨?_, ?_, ?_, ?_, ?_⟩
  · simp [createMessage1, hm, streamAB, processChunk1]
  · simp [createMessage1, hm, streamAB]
  · simp [createMessage2, hs, streamAB, processChunk2, natOr]
  · simp [createMessage2, hs, streamAB]
  · intro n
    refine ⟨by simp [processChunk1], by simp [processChunk1], by simp [processChunk2, natOr],
      by simp [processChunk2, natOr], ?_⟩
    by_cases h : n = 0 <;> simp [natOr, h]

/-- Witness for C1 at a concrete configuration. -/
theorem c1_stream_sequence_w :
    (createMessage1 oModel conv0 "sys" [] (StreamRace.ok streamAB none)).chunks =
      [ApiStreamChunk.text "a", ApiStreamChunk.text "b", ApiStreamChunk.usage 5 3] ∧
    (createMessage2 oModel conv0 "sys" [] ⟨StreamRace.ok streamAB none, SingleRace.timeout⟩).chunks =
      [ApiStreamChunk.text "a", ApiStreamChunk.text "b", ApiStreamChunk.usage 5 3] :=
  ⟨(c1_stream_sequence oModel conv0 "sys" [] SingleRace.timeout (by decide) (by decide)).1,
   (c1_stream_sequence oModel conv0 "sys" [] SingleRace.timeout (by decide) (by decide)).2.2.1⟩

/-- C2: exhibit of the code bug.  With the second variant at its defaults
(`requestTimeoutMs` unset) and neither request nor stream settling, the
timer is created with `requestTimeoutMs || 60000 = 60000` and rejects with a
message stating 60 seconds, but the outer catch recomputes the default as
`requestTimeoutMs || 30000` and surfaces "timed out after 30 seconds" —
not the configured 60-second budget the claim states.  No chunk is emitted.
The strict variant (last conjunct) states its 30-second budget but routes
the timer rejection through its generic catch, surfacing it wrapped as
"Ollama API error (unknown): ...". -/
theorem c2_timeout_message_mismatch :
    (createMessage2 oDefault conv0 "sys" [] ⟨StreamRace.timeout, SingleRace.timeout⟩).chunks = [] ∧
    (createMessage2 oDefault conv0 "sys" [] ⟨StreamRace.timeout, SingleRace.timeout⟩).error =
      some "Ollama request timed out after 30 seconds" ∧
    natOr oDefault.requestTimeoutMs 60000 = 60000 ∧
    timerMessage (natOr oDefault.requestTimeoutMs 60000) =
      "Ollama request timed out after 60 seconds" ∧
    (createMessage1 oModel conv0 "sys" [] StreamRace.timeout).chunks = [] ∧
    (createMessage1 oModel conv0 "sys" [] StreamRace.timeout).error =
      some "Ollama API error (unknown): Ollama request timed out after 30 seconds" := by
  decide

/-- C3: a missing model id makes the strict variant fail with the
configuration error before issuing any network call (the trace carries no
request, no chunks, only the error, whatever the environment would have
answered); the second variant instead silently substitutes the empty model
id and issues the request with it. -/
theorem c3_model_id_validation (o : ApiHandlerOptions) (conv : Converter)
    (sp : String) (msgs : List AnthMessage) (env1 : StreamRace) (env2 : Env)
    (h : o.ollamaModelId = none) :
    createMessage1 o conv sp msgs env1 =
      { request := none, chunks := [], error := some "Ollama model id is required" } ∧
    (createMessage2 o conv sp msgs env2).request.map (fun r => r.model) = some "" := by
  constructor
  · simp [createMessage1, strTruthy, h]
  · obtain ⟨s, g⟩ := env2
    by_cases hs : o.ollamaUseStreaming.getD true
    · cases s with
      | timeout => simp [createMessage2, hs, request2, getModel2, strOr, h]
      | rejected e => simp [createMessage2, hs, request2, getModel2, strOr, h]
      | ok chunks err =>
        cases err <;> simp [createMessage2, hs, request2, getModel2, strOr, h]
    · cases g <;> simp [createMessage2, hs, request2, getModel2, strOr, h]

/-- Witness for C3 at the default configuration. -/
theorem c3_model_id_validation_w :
    createMessage1 oDefault conv0 "sys" [] StreamRace.timeout =
      { request := none, chunks := [], error := some "Ollama model id is required" } ∧
    (createMessage2 oDefault conv0 "sys" []
        ⟨StreamRace.timeout, SingleRace.timeout⟩).request.map (fun r => r.model) = some "" :=
  c3_model_id_validation oDefault conv0 "sys" [] StreamRace.timeout
    ⟨StreamRace.timeout, SingleRace.timeout⟩ rfl

/-- C4, counterexample: in the second variant a network-level failure
(underlying code ECONNREFUSED, generic message "fetch failed") is re-raised
verbatim — the surfaced error is exactly the underlying error text and
contains neither the target URL nor the host, contradicting the claim that
such failures are never surfaced as the generic text with no host context. -/
theorem c4_verbatim_counterexample :
    (createMessage2 oDefault conv0 "sys" []
        ⟨StreamRace.rejected eConn, SingleRace.timeout⟩).error = some "fetch failed" ∧
    eConn.message = "fetch failed" ∧
    jsIncludes "fetch failed" "http://localhost:11434" = false ∧
    jsIncludes "fetch failed" "localhost" = false ∧
    jsIncludes "fetch failed" "ECONNREFUSED" = false := by
  decide

/-- C4, amended: in the strict variant an error carrying an underlying code
is re-raised as the connectivity diagnostic naming the configured base URL
and the code (and no chunk is emitted); in the second variant a rejection
whose message does not contain "timed out" is re-raised with the underlying
message unchanged after logging. -/
theorem c4_connectivity_amended (o : ApiHandlerOptions) (conv : Converter)
    (sp : String) (msgs : List AnthMessage) (e : JsError) (c : String)
    (sc : SingleRace)
    (hm : strTruthy o.ollamaModelId = true) (hc : e.code = some c)
    (hs : o.ollamaUseStreaming.getD true = true)
    (ht : jsIncludes e.message "timed out" = false) :
    (createMessage1 o conv sp msgs (StreamRace.rejected e)).error =
      some ("Could not reach Ollama at " ++ o.ollamaBaseUrl.getD "http://localhost:11434" ++
        " — " ++ c ++ ": " ++ e.message) ∧
    (createMessage1 o conv sp msgs (StreamRace.rejected e)).chunks = [] ∧
    (createMessage2 o conv sp msgs ⟨StreamRace.rejected e, sc⟩).error = some e.message := by
  refine ⟨?_, ?_, ?_⟩
  · simp [createMessage1, hm, classifyError1, hc]
  · simp [createMessage1, hm]
  · simp [createMessage2, hs, outerCatch2, ht]

/-- Witness for the amended C4 at a concrete configuration and error. -/
theorem c4_connectivity_amended_w :
    (createMessage1 oModel conv0 "sys" [] (StreamRace.rejected eConn)).error =
      some "Could not reach Ollama at http://localhost:11434 — ECONNREFUSED: fetch failed" ∧
    (createMessage2 oModel conv0 "sys" []
        ⟨StreamRace.rejected eConn, SingleRace.timeout⟩).error = some "fetch failed" :=
  ⟨(c4_connectivity_amended oModel conv0 "sys" [] eConn "ECONNREFUSED" SingleRace.timeout
      (by decide) (by decide) (by decide) (by decide)).1,
   (c4_connectivity_amended oModel conv0 "sys" [] eConn "ECONNREFUSED" SingleRace.timeout
      (by decide) (by decide) (by decide) (by decide)).2.2⟩

/-- C5, counterexample: with the context-size override "-5" — set, but not
parsing to a positive number — both variants of `getModel` return a context
window of -5, not the fixed default window size the claim requires for this
case. -/
theorem c5_ctx_counterexample :
    (getModel1 oNegCtx).info.contextWindow = -5 ∧
    (getModel2 oNegCtx).info.contextWindow = -5 ∧
    ¬ 0 < (getModel2 oNegCtx).info.contextWindow ∧
    (getModel2 oNegCtx).info.contextWindow ≠ openAiModelInfoSaneDefaults.contextWindow := by
  decide

/-- C5, amended: when the override is set (non-empty) and parses under JS
`Number` to a nonzero value n, `getModel` returns a context window of n even
when n is negative; "131072" in particular yields 131072; when the override
is set but parses to `NaN` or `0`, the context window is the fallback 32768,
not the default record's window; and only when the override is absent or
empty is the default metadata record returned unchanged. -/
theorem c5_ctx_amended (o : ApiHandlerOptions) (s : String) (n : Int) :
    (o.ollamaApiOptionsCtxNum = some "131072" →
      (getModel1 o).info.contextWindow = 131072 ∧
      (getModel2 o).info.contextWindow = 131072) ∧
    (strTruthy o.ollamaApiOptionsCtxNum = false →
      (getModel1 o).info = openAiModelInfoSaneDefaults ∧
      (getModel2 o).info = openAiModelInfoSaneDefaults) ∧
    (o.ollamaApiOptionsCtxNum = some s → jsNumber s = some n → n ≠ 0 →
      (getModel1 o).info.contextWindow = n ∧
      (getModel2 o).info.contextWindow = n) ∧
    (o.ollamaApiOptionsCtxNum = some s → s ≠ "" →
      (jsNumber s = none ∨ jsNumber s = some 0) →
      (getModel1 o).info.contextWindow = 32768 ∧
      (getModel2 o).info.contextWindow = 32768) := by
  refine ⟨?_, ?_, ?_, ?_⟩
  · intro h
    constructor <;> simp [getModel1, getModel2, h] <;> decide
  · intro h
    constructor <;> simp [getModel1, getModel2, modelInfoFromCtx, h]
  · intro h hn hnz
    have hne : s ≠ "" := by
      intro he
      rw [he] at hn
      have : (0 : Int) = n := by
        have := hn
        simp [jsNumber, trimChars] at this
        omega
      omega
    have htr : strTruthy (some s) = true := by
      simp [strTruthy]
      exact hne
    constructor <;>
      simp [getModel1, getModel2, modelInfoFromCtx, h, htr, numCtxOr32768, hn, hnz]
  · intro h hne hbad
    have htr : strTruthy (some s) = true := by
      simp [strTruthy]
      exact hne
    rcases hbad with hb | hb <;>
      constructor <;>
        simp [getModel1, getModel2, modelInfoFromCtx, h, htr, numCtxOr32768, hb]

/-- Witness for the amended C5 at concrete configurations. -/
theorem c5_ctx_amended_w :
    (getModel1 oCtx131).info.contextWindow = 131072 ∧
    (getModel2 oDefault).info = openAiModelInfoSaneDefaults ∧
    (getModel2 oNegCtx).info.contextWindow = -5 ∧
    (getModel2 oCtxAbc).info.contextWindow = 32768 :=
  ⟨((c5_ctx_amended oCtx131 "131072" 0).1 rfl).1,
   ((c5_ctx_amended oDefault "" 0).2.1 (by decide)).2,
   ((c5_ctx_amended oNegCtx "-5" (-5)).2.2.1 rfl (by decide) (by decide)).2,
   ((c5_ctx_amended oCtxAbc "abc" 0).2.2.2 rfl (by decide) (Or.inl (by decide))).2⟩

/-- C6: in non-streaming mode a successful second-variant call finishes
without error and emits exactly one `Text` chunk when the response carries
string content (and none otherwise), followed by exactly one `Usage` chunk
when the response reports at least one evaluation counter (and none
otherwise), and nothing else. -/
theorem c6_nonstreaming (o : ApiHandlerOptions) (conv : Converter)
    (sp : String) (msgs : List AnthMessage) (resp : OllamaChunk)
    (st : StreamRace)
    (hs : o.ollamaUseStreaming = some false) :
    (createMessage2 o conv sp msgs ⟨st, SingleRace.ok resp⟩).chunks =
      (match resp.content with
        | some s => [ApiStreamChunk.text s]
        | none => []) ++
      (if resp.eval_count.isSome || resp.prompt_eval_count.isSome then
        [ApiStreamChunk.usage (natOr resp.prompt_eval_count 0) (natOr resp.eval_count 0)]
      else []) ∧
    (createMessage2 o conv sp msgs ⟨st, SingleRace.ok resp⟩).error = none := by
  constructor <;> simp [createMessage2, hs, processChunk2]

/-- Witness for C6: a content-and-counter response in non-streaming mode. -/
theorem c6_nonstreaming_w :
    (createMessage2 oNoStream conv0 "sys" []
        ⟨StreamRace.timeout, SingleRace.ok ⟨some "hi", some 3, some 5⟩⟩).chunks =
      [ApiStreamChunk.text "hi", ApiStreamChunk.usage 5 3] ∧
    (createMessage2 oNoStream conv0 "sys" []
        ⟨StreamRace.timeout, SingleRace.ok ⟨some "hi", some 3, some 5⟩⟩).error = none :=
  ⟨by
    rw [(c6_nonstreaming oNoStream conv0 "sys" [] ⟨some "hi", some 3, some 5⟩
      StreamRace.timeout rfl).1]
    decide,
   (c6_nonstreaming oNoStream conv0 "sys" [] ⟨some "hi", some 3, some 5⟩
      StreamRace.timeout rfl).2⟩

/-- C7, counterexample: a mid-stream error whose message contains
"timed out" is not re-raised as the stream-processing wrapper: the outer
catch intercepts the wrapped message and surfaces a timeout message instead
(the chunks emitted before the failure do remain emitted). -/
theorem c7_wrap_counterexample :
    (createMessage2 oDefault conv0 "sys" []
        ⟨StreamRace.ok [⟨some "a", none, none⟩] (some eMidTimeout), SingleRace.timeout⟩).error =
      some "Ollama request timed out after 30 seconds" ∧
    jsIncludes "Ollama request timed out after 30 seconds"
      "Ollama stream processing error" = false ∧
    (createMessage2 oDefault conv0 "sys" []
        ⟨StreamRace.ok [⟨some "a", none, none⟩] (some eMidTimeout), SingleRace.timeout⟩).chunks =
      [ApiStreamChunk.text "a"] := by
  decide

/-- C7, amended: in the second variant an error raised during consumption of
an already-started stream whose wrapped message does not contain "timed out"
is re-raised as `Ollama stream processing error: ...`; one containing
"timed out" is instead converted by the outer catch into a timeout message.
In both cases the chunks emitted before the failure are not retracted: the
emitted sequence extends to the sequence the unfailed stream would have
produced (second conjunct). -/
theorem c7_stream_wrap_amended (o : ApiHandlerOptions) (conv : Converter)
    (sp : String) (msgs : List AnthMessage) (chunks rest : List OllamaChunk)
    (e : JsError) (sc : SingleRace)
    (hs : o.ollamaUseStreaming.getD true = true)
    (ht : jsIncludes (wrapStreamError e) "timed out" = false) :
    (createMessage2 o conv sp msgs ⟨StreamRace.ok chunks (some e), sc⟩).error =
      some (wrapStreamError e) ∧
    (createMessage2 o conv sp msgs ⟨StreamRace.ok chunks (some e), sc⟩).chunks ++
        rest.flatMap processChunk2 =
      (createMessage2 o conv sp msgs ⟨StreamRace.ok (chunks ++ rest) none, sc⟩).chunks := by
  constructor
  · simp [createMessage2, hs, outerCatch2, ht]
  · simp [createMessage2, hs]

/-- Witness for the amended C7 at a concrete configuration and error. -/
theorem c7_stream_wrap_amended_w :
    (createMessage2 oModel conv0 "sys" []
        ⟨StreamRace.ok [⟨some "a", none, none⟩] (some eConn), SingleRace.timeout⟩).error =
      some "Ollama stream processing error: fetch failed" ∧
    (createMessage2 oModel conv0 "sys" []
        ⟨StreamRace.ok [⟨some "a", none, none⟩] (some eConn), SingleRace.timeout⟩).chunks ++
        [⟨some "b", none, none⟩].flatMap processChunk2 =
      (createMessage2 oModel conv0 "sys" []
        ⟨StreamRace.ok ([⟨some "a", none, none⟩] ++ [⟨some "b", none, none⟩]) none,
          SingleRace.timeout⟩).chunks :=
  ⟨(c7_stream_wrap_amended oModel conv0 "sys" [] [⟨some "a", none, none⟩]
      [⟨some "b", none, none⟩] eConn SingleRace.timeout (by decide) (by decide)).1,
   (c7_stream_wrap_amended oModel conv0 "sys" [] [⟨some "a", none, none⟩]
      [⟨some "b", none, none⟩] eConn SingleRace.timeout (by decide) (by decide)).2⟩

/-- C8: both variants send the transport client exactly one synthetic
system-role message carrying the system prompt followed by the converter's
image of the input messages, in order; and (last conjunct) the strict
variant's trace records exactly that request once the model id is set. -/
theorem c8_message_list (o : ApiHandlerOptions) (conv : Converter)
    (sp : String) (msgs : List AnthMessage) (b : Bool) (env : StreamRace) :
    (request1 o conv sp msgs).messages =
      ({ role := "system", content := sp } : OMessage) :: conv msgs ∧
    (request2 o conv sp msgs b).messages =
      ({ role := "system", content := sp } : OMessage) :: conv msgs ∧
    (strTruthy o.ollamaModelId = true →
      (createMessage1 o conv sp msgs env).request = some (request1 o conv sp msgs)) := by
  refine ⟨rfl, rfl, fun h => ?_⟩
  cases env <;> simp [createMessage1, h]

/-- Witness for C8 at a concrete configuration. -/
theorem c8_message_list_w :
    (request1 oModel conv0 "sys" []).messages =
      [({ role := "system", content := "sys" } : OMessage)] ∧
    (createMessage1 oModel conv0 "sys" [] StreamRace.timeout).request =
      some (request1 oModel conv0 "sys" []) :=
  ⟨(c8_message_list oModel conv0 "sys" [] true StreamRace.timeout).1,
   (c8_message_list oModel conv0 "sys" [] true StreamRace.timeout).2.2 (by decide)⟩

/-- C9: `getModel` of either variant is a pure function of the fixed
configuration the adapter was constructed with, so two successive calls
under an unchanged configuration return equal descriptors. -/
theorem c9_getModel_idempotent (o : ApiHandlerOptions) :
    getModel1 o = getModel1 o ∧ getModel2 o = getModel2 o :=
  ⟨rfl, rfl⟩

/-- C10: a stream chunk whose `message.content` is a string s — the empty
string included — and which also reports at least one counter yields two
output chunks, a `Text` immediately followed by the corresponding `Usage`,
under both variants' per-chunk processing; and the strict variant's
`createMessage` emits exactly those two chunks for a one-chunk stream. -/
theorem c10_text_then_usage (c : OllamaChunk) (s : String)
    (o : ApiHandlerOptions) (conv : Converter) (sp : String)
    (msgs : List AnthMessage)
    (hc : c.content = some s)
    (hcount : (c.eval_count.isSome || c.prompt_eval_count.isSome) = true)
    (hm : strTruthy o.ollamaModelId = true) :
    processChunk1 c = [ApiStreamChunk.text s,
      ApiStreamChunk.usage (c.prompt_eval_count.getD 0) (c.eval_count.getD 0)] ∧
    processChunk2 c = [ApiStreamChunk.text s,
      ApiStreamChunk.usage (natOr c.prompt_eval_count 0) (natOr c.eval_count 0)] ∧
    (createMessage1 o conv sp msgs (StreamRace.ok [c] none)).chunks =
      [ApiStreamChunk.text s,
        ApiStreamChunk.usage (c.prompt_eval_count.getD 0) (c.eval_count.getD 0)] := by
  refine ⟨?_, ?_, ?_⟩
  · simp [processChunk1, hc, hcount]
  · simp [processChunk2, hc, hcount]
  · simp [createMessage1, hm, processChunk1, hc, hcount]

/-- Witness for C10: the content is the empty string and only `eval_count`
is reported (as zero), so the Text chunk is still emitted and the missing
counter defaults to zero. -/
theorem c10_text_then_usage_w :
    processChunk1 ⟨some "", some 0, none⟩ =
      [ApiStreamChunk.text "", ApiStreamChunk.usage 0 0] ∧
    (createMessage1 oModel conv0 "sys" []
        (StreamRace.ok [⟨some "", some 0, none⟩] none)).chunks =
      [ApiStreamChunk.text "", ApiStreamChunk.usage 0 0] :=
  ⟨(c10_text_then_usage ⟨some "", some 0, none⟩ "" oModel conv0 "sys" []
      rfl (by decide) (by decide)).1,
   (c10_text_then_usage ⟨some "", some 0, none⟩ "" oModel conv0 "sys" []
      rfl (by decide) (by decide)).2.2⟩
